import Mathlib

/-!
# Verification of the tp-logger facade (`logger.go`)

Shallow embedding of the Go source of the `tp-logger` repository, a thin
configuration facade over the external zap structured-logging library.
The primary embedded file is `logger.go` (the lazy-initialization variant,
with the `initialized` flag, `ensureInitialized`, and the `MkdirAll` call);
the second source file (the explicit variant, package `tp_logger`) shares
`Init`, `generateTraceID`, `getHostname`, the logging entry points and
`WithFields` verbatim except that it lacks the `initialized` flag,
`ensureInitialized` and the `MkdirAll` call.

External collaborators (the process environment, the filesystem, the
wall clock, the PRNG, `fmt` formatting, and the zap build step) are
modelled by a `World` record of deterministic oracles.  Zap's
`Config.Build` fails exactly when opening one of the output sinks fails;
the `"stdout"` sink is special-cased by zap and always opens, which the
model reflects in `pathOpens`.  The encoder-key settings (`TimeKey`,
`EncodeTime`, `CallerKey`, `MessageKey`, `LevelKey`) are presentation
configuration of the external encoder and carry no facade logic, so they
are not modelled.  Process termination by `Fatal*` and the raised error of
`Panic*` are process-level effects outside the embedding; the emitted
record and its severity are modelled.  A `nil` dereference of the global
`*zap.SugaredLogger` is modelled by `Option`: `none` where Go would panic
on a nil pointer.
-/

namespace TpLogger

/-- `Config` from `logger.go`: logger configuration. -/
structure Config where
  serviceName : String
  logFile : String
  environment : String
  version : String
  console : Bool
deriving Repr, DecidableEq

/-- Zap severity levels (the ones the facade uses). -/
inductive Severity where
  | debug
  | info
  | warn
  | error
  | panic
  | fatal
deriving Repr, DecidableEq

/-- The two fields of `zap.NewProductionConfig()` that the facade
conditionally overrides: minimum level `info` and development mode off. -/
structure ZapBaseConfig where
  level : Severity
  development : Bool
deriving Repr, DecidableEq

/-- Model of `zap.NewProductionConfig()` (external library defaults):
info-level minimum severity, development mode disabled. -/
def productionConfig : ZapBaseConfig := { level := .info, development := false }

/-- Model of `zap.NewDevelopmentConfig()` (external library defaults):
debug-level minimum severity, development mode enabled. -/
def developmentConfig : ZapBaseConfig := { level := .debug, development := true }

/-- The parts of a `zap.Config` that the facade sets: output paths,
development flag, minimum level, and the initial fields attached to every
record.  Go's `map[string]interface{}` for `InitialFields` is modelled as
an association list (the claims only use membership). -/
structure ZapConfig where
  outputPaths : List String
  development : Bool
  level : Severity
  initialFields : List (String × String)
deriving Repr, DecidableEq

/-- Model of a constructed `*zap.SugaredLogger`: its accumulated context
fields, minimum level, development flag, sinks and caller skip. -/
structure Logger where
  fields : List (String × String)
  level : Severity
  development : Bool
  outputPaths : List String
  callerSkip : Nat
deriving Repr, DecidableEq

/-- One emitted log record: severity, rendered message, and the structured
fields (logger context fields followed by per-call fields). -/
structure Record where
  severity : Severity
  message : String
  fields : List (String × String)
deriving Repr, DecidableEq

/-- Observable side effects of `Init` on the filesystem / library:
the `os.MkdirAll` call (directory, permission bits) and the
`config.Build` call (with its output paths). -/
inductive Effect where
  | mkdirAll (dir : String) (perm : Nat)
  | buildLogger (outputs : List String)
deriving Repr, DecidableEq

/-- The process-wide mutable state of `logger.go`: the two package-level
variables `globalLogger *zap.SugaredLogger` (nil modelled as `none`) and
`initialized bool`. -/
structure State where
  globalLogger : Option Logger
  initialized : Bool
deriving Repr, DecidableEq

/-- The state of a fresh process: `globalLogger = nil`,
`initialized = false`. -/
def initialState : State := { globalLogger := none, initialized := false }

/-- Deterministic oracles for the external collaborators of the facade:
the environment-variable store (`getenv` returns `""` for unset, as in
Go), hostname lookup, `filepath.Dir`, `os.MkdirAll` success and failure
message per directory, sink opening success and failure message per path,
the wall clock (`time.Now().Unix()` and `time.Now().UnixNano()`), the
PRNG output as a function of its seed (`rand.New(rand.NewSource(seed))`),
and `fmt` rendering of variadic arguments. -/
structure World where
  getenv : String → String
  hostnameOk : Bool
  hostname : String
  filepathDir : String → String
  mkdirOk : String → Bool
  mkdirErr : String → String
  openOk : String → Bool
  openErr : String → String
  nowUnix : Int
  nowUnixNano : Int
  randSrc : Int → Nat
  sprint : List String → String
  sprintf : String → List String → String

/-- `getHostname` from `logger.go`: `os.Hostname()`, substituting
`"unknown"` on failure. -/
def getHostname (w : World) : String :=
  if w.hostnameOk then w.hostname else "unknown"

/-- `generateTraceID` from `logger.go`: seeds a PRNG with
`time.Now().UnixNano()` and renders
`fmt.Sprintf("trace_%d_%d", time.Now().Unix(), r.Intn(10000))`.
`r.Intn(10000)` is the seeded source's first output reduced into
`[0, 10000)`. -/
def generateTraceID (w : World) : String :=
  "trace_" ++ toString w.nowUnix ++ "_" ++ toString (w.randSrc w.nowUnixNano % 10000)

/-- Whether zap can open an output sink: the `"stdout"` sink is
special-cased by the library and always opens; file sinks open according
to the world. -/
def pathOpens (w : World) (p : String) : Bool :=
  p == "stdout" || w.openOk p

/-- The logger value produced by a successful `config.Build`:
it carries the config's initial fields, level, development flag,
output paths and the requested caller skip. -/
def mkLogger (c : ZapConfig) (skip : Nat) : Logger :=
  { fields := c.initialFields
    level := c.level
    development := c.development
    outputPaths := c.outputPaths
    callerSkip := skip }

/-- Model of zap's `config.Build(zap.AddCallerSkip(skip))` (external
library): fails with the sink's open error when some output path cannot
be opened, otherwise returns the constructed logger. -/
def buildZap (w : World) (c : ZapConfig) (skip : Nat) : Except String Logger :=
  match c.outputPaths.find? (fun p => !(pathOpens w p)) with
  | some p => .error (w.openErr p)
  | none => .ok (mkLogger c skip)

/-- The default-resolution step of `Init` (`logger.go` lines 81-93):
empty `Environment` falls back to `APP_ENV`, then to `"dev"`; empty
`Version` falls back to `APP_VERSION`, then to `"1.0.0"`; non-empty
explicit values are kept. -/
def resolveConfig (w : World) (cfg : Config) : Config :=
  let environment :=
    if cfg.environment = "" then
      let e := w.getenv "APP_ENV"
      if e = "" then "dev" else e
    else cfg.environment
  let version :=
    if cfg.version = "" then
      let v := w.getenv "APP_VERSION"
      if v = "" then "1.0.0" else v
    else cfg.version
  { cfg with environment := environment, version := version }

/-- The zap config assembled by `Init` (`logger.go` lines 95-125) from an
already default-resolved config: production defaults, output paths
(`"stdout"` when console is enabled, then always the log file), the
dev-environment override of development flag and level, and the five
initial fields (the trace id freshly generated, the hostname resolved). -/
def zapConfigFor (w : World) (cfg : Config) : ZapConfig :=
  { outputPaths := (if cfg.console then ["stdout"] else []) ++ [cfg.logFile]
    development := if cfg.environment = "dev" then true else productionConfig.development
    level := if cfg.environment = "dev" then .debug else productionConfig.level
    initialFields :=
      [("service", cfg.serviceName), ("env", cfg.environment),
       ("version", cfg.version), ("trace_id", generateTraceID w),
       ("host", getHostname w)] }

/-- The permission bits passed to `os.MkdirAll` in `Init`: octal 0755. -/
def mkdirPerm : Nat := 0o755

/-- The post-validation body of `Init` (`logger.go` lines 95-141), taking
the already default-resolved config: assembles the zap config, runs
`os.MkdirAll(filepath.Dir(cfg.LogFile), 0755)` (failure wraps the cause
as `failed to create log directory: ...` and leaves the state untouched),
then `config.Build(zap.AddCallerSkip(1))` (failure wraps the cause as
`failed to build logger: ...`); on success installs the logger and sets
`initialized`.  The effect trace records the filesystem / build calls in
order. -/
def buildFromResolved (w : World) (st : State) (cfg : Config) :
    State × List Effect × Except String Unit :=
  let zc := zapConfigFor w cfg
  let logDir := w.filepathDir cfg.logFile
  if w.mkdirOk logDir then
    match buildZap w zc 1 with
    | .ok l =>
        ({ globalLogger := some l, initialized := true },
         [.mkdirAll logDir mkdirPerm, .buildLogger zc.outputPaths], .ok ())
    | .error e =>
        (st, [.mkdirAll logDir mkdirPerm, .buildLogger zc.outputPaths],
         .error ("failed to build logger: " ++ e))
  else
    (st, [.mkdirAll logDir mkdirPerm],
     .error ("failed to create log directory: " ++ w.mkdirErr logDir))

/-- `Init` from `logger.go` (lines 72-141): validates that `ServiceName`
and `LogFile` are non-empty (returning the corresponding error with no
effects and no state change), then resolves defaults and runs the
construction body. -/
def Init (w : World) (st : State) (cfg : Config) :
    State × List Effect × Except String Unit :=
  if cfg.serviceName = "" then (st, [], .error "ServiceName is required")
  else if cfg.logFile = "" then (st, [], .error "LogFile is required")
  else buildFromResolved w st (resolveConfig w cfg)

/-- The config `ensureInitialized` assembles (`logger.go` lines 32-44):
service name from `SERVICE_NAME` falling back to `"app"`, log file
`/app/logs/{service}.log`, console disabled, environment and version left
empty (resolved later by `Init`). -/
def autoConfig (w : World) : Config :=
  let serviceName :=
    let s := w.getenv "SERVICE_NAME"
    if s = "" then "app" else s
  { serviceName := serviceName
    logFile := "/app/logs/" ++ serviceName ++ ".log"
    environment := ""
    version := ""
    console := false }

/-- The zap config of the fallback logger built when `Init` fails inside
`ensureInitialized` (`logger.go` lines 47-51): `zap.NewDevelopmentConfig()`
with `OutputPaths` set to `["stdout"]` and no initial fields. -/
def fallbackZapConfig : ZapConfig :=
  { outputPaths := ["stdout"]
    development := developmentConfig.development
    level := developmentConfig.level
    initialFields := [] }

/-- The fallback logger: console-only, development mode, debug level,
no context fields, no caller skip. -/
def fallbackLogger : Logger :=
  { fields := []
    level := .debug
    development := true
    outputPaths := ["stdout"]
    callerSkip := 0 }

/-- `ensureInitialized` from `logger.go` (lines 26-55): returns at once
when the flag is set; otherwise runs `Init` on the auto-derived config,
on failure builds the fallback console logger ignoring its error
(`logger, _ := zapConfig.Build()`), and sets the flag unconditionally.
The returned `Nat` counts the construction attempts (invocations of the
construction routine `Init`) made by this call: `0` when the flag was
already set, `1` otherwise. -/
def ensureInitialized (w : World) (st : State) : State × Nat :=
  if st.initialized then (st, 0)
  else
    let r := Init w st (autoConfig w)
    match r.2.2 with
    | .ok _ => ({ r.1 with initialized := true }, 1)
    | .error _ =>
        ({ globalLogger := (buildZap w fallbackZapConfig 0).toOption,
           initialized := true }, 1)

/-- `SugaredLogger.With` (external zap): the derived logger accumulates
the given key/value pairs after its existing context fields. -/
def Logger.withKVs (l : Logger) (kvs : List (String × String)) : Logger :=
  { l with fields := l.fields ++ kvs }

/-- Emission of one record by a logger (external zap): the record carries
the call's severity and message, and the logger's context fields followed
by the per-call structured fields. -/
def Logger.emit (l : Logger) (sev : Severity) (msg : String)
    (kvs : List (String × String)) : Record :=
  { severity := sev, message := msg, fields := l.fields ++ kvs }

/-- Emission through the global state: `none` models the nil-pointer
panic of calling through a nil `*zap.SugaredLogger`. -/
def State.emitVia (st : State) (sev : Severity) (msg : String)
    (kvs : List (String × String)) : Option Record :=
  st.globalLogger.map (fun l => l.emit sev msg kvs)

/-!
## Public logging entry points of `logger.go`

Each leveled / structured entry point first calls `ensureInitialized`,
then forwards to the corresponding severity on the global logger.  Each
returns the state after the call, the number of construction attempts the
call triggered, and the record emitted through the global logger (`none`
models the nil-pointer panic; after `ensureInitialized` it never is).
`fmt.Sprint` / `fmt.Sprintf` rendering is the external `sprint` /
`sprintf` oracle of the world.  `Fatal*` additionally terminates the
process and `Panic*` raises after emitting; those process-level effects
are outside the embedding.
-/

/-- `Print` from `logger.go`: `ensureInitialized` then `Info(args...)`. -/
def Print (w : World) (st : State) (args : List String) :
    State × Nat × Option Record :=
  let e := ensureInitialized w st
  (e.1, e.2, e.1.emitVia .info (w.sprint args) [])

/-- `Printf` from `logger.go`: `ensureInitialized` then
`Infof(format, args...)`. -/
def Printf (w : World) (st : State) (format : String) (args : List String) :
    State × Nat × Option Record :=
  let e := ensureInitialized w st
  (e.1, e.2, e.1.emitVia .info (w.sprintf format args) [])

/-- `Println` from `logger.go`: `ensureInitialized` then `Info(args...)`. -/
def Println (w : World) (st : State) (args : List String) :
    State × Nat × Option Record :=
  let e := ensureInitialized w st
  (e.1, e.2, e.1.emitVia .info (w.sprint args) [])

/-- `Fatal` from `logger.go`: `ensureInitialized` then `Fatal(args...)`. -/
def Fatal (w : World) (st : State) (args : List String) :
    State × Nat × Option Record :=
  let e := ensureInitialized w st
  (e.1, e.2, e.1.emitVia .fatal (w.sprint args) [])

/-- `Fatalf` from `logger.go`: `ensureInitialized` then
`Fatalf(format, args...)`. -/
def Fatalf (w : World) (st : State) (format : String) (args : List String) :
    State × Nat × Option Record :=
  let e := ensureInitialized w st
  (e.1, e.2, e.1.emitVia .fatal (w.sprintf format args) [])

/-- `Fatalln` from `logger.go`: `ensureInitialized` then `Fatal(args...)`. -/
def Fatalln (w : World) (st : State) (args : List String) :
    State × Nat × Option Record :=
  let e := ensureInitialized w st
  (e.1, e.2, e.1.emitVia .fatal (w.sprint args) [])

/-- `Panic` from `logger.go`: `ensureInitialized` then `Panic(args...)`. -/
def Panic (w : World) (st : State) (args : List String) :
    State × Nat × Option Record :=
  let e := ensureInitialized w st
  (e.1, e.2, e.1.emitVia .panic (w.sprint args) [])

/-- `Panicf` from `logger.go`: `ensureInitialized` then
`Panicf(format, args...)`. -/
def Panicf (w : World) (st : State) (format : String) (args : List String) :
    State × Nat × Option Record :=
  let e := ensureInitialized w st
  (e.1, e.2, e.1.emitVia .panic (w.sprintf format args) [])

/-- `Panicln` from `logger.go`: `ensureInitialized` then `Panic(args...)`. -/
def Panicln (w : World) (st : State) (args : List String) :
    State × Nat × Option Record :=
  let e := ensureInitialized w st
  (e.1, e.2, e.1.emitVia .panic (w.sprint args) [])

/-- `Error` from `logger.go`: `ensureInitialized` then `Error(args...)`. -/
def Error (w : World) (st : State) (args : List String) :
    State × Nat × Option Record :=
  let e := ensureInitialized w st
  (e.1, e.2, e.1.emitVia .error (w.sprint args) [])

/-- `Errorf` from `logger.go`: `ensureInitialized` then
`Errorf(format, args...)`. -/
def Errorf (w : World) (st : State) (format : String) (args : List String) :
    State × Nat × Option Record :=
  let e := ensureInitialized w st
  (e.1, e.2, e.1.emitVia .error (w.sprintf format args) [])

/-- `Warn` from `logger.go`: `ensureInitialized` then `Warn(args...)`. -/
def Warn (w : World) (st : State) (args : List String) :
    State × Nat × Option Record :=
  let e := ensureInitialized w st
  (e.1, e.2, e.1.emitVia .warn (w.sprint args) [])

/-- `Warnf` from `logger.go`: `ensureInitialized` then
`Warnf(format, args...)`. -/
def Warnf (w : World) (st : State) (format : String) (args : List String) :
    State × Nat × Option Record :=
  let e := ensureInitialized w st
  (e.1, e.2, e.1.emitVia .warn (w.sprintf format args) [])

/-- `Info` from `logger.go`: `ensureInitialized` then `Info(args...)`. -/
def Info (w : World) (st : State) (args : List String) :
    State × Nat × Option Record :=
  let e := ensureInitialized w st
  (e.1, e.2, e.1.emitVia .info (w.sprint args) [])

/-- `Infof` from `logger.go`: `ensureInitialized` then
`Infof(format, args...)`. -/
def Infof (w : World) (st : State) (format : String) (args : List String) :
    State × Nat × Option Record :=
  let e := ensureInitialized w st
  (e.1, e.2, e.1.emitVia .info (w.sprintf format args) [])

/-- `Debug` from `logger.go`: `ensureInitialized` then `Debug(args...)`. -/
def Debug (w : World) (st : State) (args : List String) :
    State × Nat × Option Record :=
  let e := ensureInitialized w st
  (e.1, e.2, e.1.emitVia .debug (w.sprint args) [])

/-- `Debugf` from `logger.go`: `ensureInitialized` then
`Debugf(format, args...)`. -/
def Debugf (w : World) (st : State) (format : String) (args : List String) :
    State × Nat × Option Record :=
  let e := ensureInitialized w st
  (e.1, e.2, e.1.emitVia .debug (w.sprintf format args) [])

/-- `InfoStruct` from `logger.go`: `ensureInitialized` then
`Infow(msg, keysAndValues...)`.  Well-formed key/value arguments are a
list of pairs (zap's tolerance of malformed variadic pairs is library
behavior outside the facade). -/
def InfoStruct (w : World) (st : State) (msg : String)
    (kvs : List (String × String)) : State × Nat × Option Record :=
  let e := ensureInitialized w st
  (e.1, e.2, e.1.emitVia .info msg kvs)

/-- `ErrorStruct` from `logger.go`: `ensureInitialized` then
`Errorw(msg, keysAndValues...)`. -/
def ErrorStruct (w : World) (st : State) (msg : String)
    (kvs : List (String × String)) : State × Nat × Option Record :=
  let e := ensureInitialized w st
  (e.1, e.2, e.1.emitVia .error msg kvs)

/-- `DebugStruct` from `logger.go`: `ensureInitialized` then
`Debugw(msg, keysAndValues...)`. -/
def DebugStruct (w : World) (st : State) (msg : String)
    (kvs : List (String × String)) : State × Nat × Option Record :=
  let e := ensureInitialized w st
  (e.1, e.2, e.1.emitVia .debug msg kvs)

/-- `WarnStruct` from `logger.go`: `ensureInitialized` then
`Warnw(msg, keysAndValues...)`. -/
def WarnStruct (w : World) (st : State) (msg : String)
    (kvs : List (String × String)) : State × Nat × Option Record :=
  let e := ensureInitialized w st
  (e.1, e.2, e.1.emitVia .warn msg kvs)

/-- `WithFields` from `logger.go` (lines 283-286): returns
`globalLogger.With(keysAndValues...)` WITHOUT calling
`ensureInitialized` and without touching the global state; `none` models
the nil-pointer panic when the global logger is still nil. -/
def WithFields (st : State) (kvs : List (String × String)) : Option Logger :=
  st.globalLogger.map (fun l => l.withKVs kvs)

/-!
## Sequences of public logging calls
-/

/-- One public logging call with its arguments (every leveled and
structured entry point of `logger.go`). -/
inductive Call where
  | print (args : List String)
  | printf (format : String) (args : List String)
  | println (args : List String)
  | fatal (args : List String)
  | fatalf (format : String) (args : List String)
  | fatalln (args : List String)
  | panic (args : List String)
  | panicf (format : String) (args : List String)
  | panicln (args : List String)
  | error (args : List String)
  | errorf (format : String) (args : List String)
  | warn (args : List String)
  | warnf (format : String) (args : List String)
  | info (args : List String)
  | infof (format : String) (args : List String)
  | debug (args : List String)
  | debugf (format : String) (args : List String)
  | infoStruct (msg : String) (kvs : List (String × String))
  | errorStruct (msg : String) (kvs : List (String × String))
  | debugStruct (msg : String) (kvs : List (String × String))
  | warnStruct (msg : String) (kvs : List (String × String))

/-- Dispatch of one public logging call to its entry point. -/
def step (w : World) (st : State) : Call → State × Nat × Option Record
  | .print args => Print w st args
  | .printf format args => Printf w st format args
  | .println args => Println w st args
  | .fatal args => Fatal w st args
  | .fatalf format args => Fatalf w st format args
  | .fatalln args => Fatalln w st args
  | .panic args => Panic w st args
  | .panicf format args => Panicf w st format args
  | .panicln args => Panicln w st args
  | .error args => Error w st args
  | .errorf format args => Errorf w st format args
  | .warn args => Warn w st args
  | .warnf format args => Warnf w st format args
  | .info args => Info w st args
  | .infof format args => Infof w st format args
  | .debug args => Debug w st args
  | .debugf format args => Debugf w st format args
  | .infoStruct msg kvs => InfoStruct w st msg kvs
  | .errorStruct msg kvs => ErrorStruct w st msg kvs
  | .debugStruct msg kvs => DebugStruct w st msg kvs
  | .warnStruct msg kvs => WarnStruct w st msg kvs

/-- Running a sequence of public logging calls, accumulating the total
number of construction attempts they trigger. -/
def runCalls (w : World) (st : State) : List Call → State × Nat
  | [] => (st, 0)
  | c :: cs =>
      let s := step w st c
      let r := runCalls w s.1 cs
      (r.1, s.2.1 + r.2)

/-- A concrete world used to instantiate universally quantified theorems
at evaluable inputs: no environment variables set, hostname resolves,
every directory creation and sink opening succeeds. -/
def sampleWorld : World :=
  { getenv := fun _ => ""
    hostnameOk := true
    hostname := "host1"
    filepathDir := fun _ => "/app/logs"
    mkdirOk := fun _ => true
    mkdirErr := fun _ => "permission denied"
    openOk := fun _ => true
    openErr := fun _ => "no such file or directory"
    nowUnix := 1700000000
    nowUnixNano := 1700000000123456789
    randSrc := fun _ => 424242
    sprint := String.intercalate " "
    sprintf := fun format _ => format }

/-- A world in which every directory creation fails: `Init` then fails at
the `MkdirAll` step. -/
def mkdirFailWorld : World :=
  { sampleWorld with mkdirOk := fun _ => false }

/-!
## Helper lemmas
-/

/-- When the flag is already set, `ensureInitialized` is the identity and
triggers no construction attempt. -/
theorem ensure_of_flag (w : World) (st : State) (h : st.initialized = true) :
    ensureInitialized w st = (st, 0) := by
  simp [ensureInitialized, h]

/-- `ensureInitialized` always leaves the flag set. -/
theorem ensure_flag (w : World) (st : State) :
    ((ensureInitialized w st).1).initialized = true := by
  unfold ensureInitialized
  split
  · next h => exact h
  · dsimp only
    split <;> rfl

/-- From an uninitialized state, `ensureInitialized` makes exactly one
construction attempt. -/
theorem ensure_attempts (w : World) (st : State) (h : st.initialized = false) :
    (ensureInitialized w st).2 = 1 := by
  unfold ensureInitialized
  simp only [h, Bool.false_eq_true, if_false]
  split <;> rfl

/-- `Init` either fails leaving the state untouched, or succeeds having
installed a logger and set the flag. -/
theorem init_cases (w : World) (st : State) (cfg : Config) :
    (∃ e, (Init w st cfg).2.2 = .error e ∧ (Init w st cfg).1 = st) ∨
    (∃ l, (Init w st cfg).2.2 = .ok () ∧
      (Init w st cfg).1 = { globalLogger := some l, initialized := true }) := by
  unfold Init buildFromResolved
  split
  · exact .inl ⟨_, rfl, rfl⟩
  split
  · exact .inl ⟨_, rfl, rfl⟩
  dsimp only
  split
  · split
    · exact .inr ⟨_, rfl, rfl⟩
    · exact .inl ⟨_, rfl, rfl⟩
  · exact .inl ⟨_, rfl, rfl⟩

/-- Building the fallback console config always succeeds, with the
fallback logger as result (the `"stdout"` sink always opens). -/
theorem fallback_build (w : World) :
    buildZap w fallbackZapConfig 0 = .ok fallbackLogger := by
  simp [buildZap, fallbackZapConfig, pathOpens, mkLogger, fallbackLogger,
    developmentConfig, List.find?]

/-- From an uninitialized state, `ensureInitialized` always installs some
logger (the constructed one or the fallback). -/
theorem ensure_some (w : World) (st : State) (h : st.initialized = false) :
    ((ensureInitialized w st).1).globalLogger.isSome = true := by
  unfold ensureInitialized
  simp only [h, Bool.false_eq_true, if_false]
  rcases init_cases w st (autoConfig w) with ⟨e, he, _⟩ | ⟨l, hok, hst⟩
  · simp [he, fallback_build w, Except.toOption]
  · simp [hok, hst]

/-- Every public logging call's resulting state is `ensureInitialized`'s. -/
theorem step_state (w : World) (st : State) (c : Call) :
    (step w st c).1 = (ensureInitialized w st).1 := by
  cases c <;> rfl

/-- Every public logging call's construction-attempt count is
`ensureInitialized`'s. -/
theorem step_attempts (w : World) (st : State) (c : Call) :
    (step w st c).2.1 = (ensureInitialized w st).2 := by
  cases c <;> rfl

/-- Unfolding one step of `runCalls`. -/
theorem runCalls_cons (w : World) (st : State) (c : Call) (cs : List Call) :
    runCalls w st (c :: cs) =
      ((runCalls w (step w st c).1 cs).1,
       (step w st c).2.1 + (runCalls w (step w st c).1 cs).2) := rfl

/-- From an initialized state, a sequence of public logging calls leaves
the state unchanged and triggers no construction attempt. -/
theorem runCalls_of_flag (w : World) (st : State) (h : st.initialized = true)
    (cs : List Call) : runCalls w st cs = (st, 0) := by
  induction cs with
  | nil => rfl
  | cons c cs ih =>
      rw [runCalls_cons]
      simp only [step_state, step_attempts, ensure_of_flag w st h, ih]

/-- Emitting through the state left by `ensureInitialized` never hits a
nil logger. -/
theorem emit_after_ensure_isSome (w : World) (st : State)
    (h : st.initialized = false) (sev : Severity) (msg : String)
    (kvs : List (String × String)) :
    (((ensureInitialized w st).1).emitVia sev msg kvs).isSome = true := by
  have hs := ensure_some w st h
  cases ho : ((ensureInitialized w st).1).globalLogger with
  | none => rw [ho] at hs; cases hs
  | some l => simp [State.emitVia, ho]

/-!
## Claim theorems
-/

/-- C1: Under the lazy policy, for every sequence of public logging
calls from the fresh process state, the first call triggers exactly one
construction attempt (invocation of the construction routine `Init`) and
every later call triggers zero further attempts: the whole sequence
totals exactly one attempt; moreover `ensureInitialized` returns
immediately (state unchanged, zero attempts) whenever the `initialized`
flag is set, and leaves the flag set unconditionally after any run, even
when construction failed and the fallback was taken. -/
theorem lazy_single_construction_attempt (w : World) (cs : List Call)
    (h : cs ≠ []) :
    (runCalls w initialState cs).2 = 1
    ∧ (∀ st : State, st.initialized = true → ensureInitialized w st = (st, 0))
    ∧ (∀ st : State, ((ensureInitialized w st).1).initialized = true) := by
  refine ⟨?_, fun st hst => ensure_of_flag w st hst, fun st => ensure_flag w st⟩
  match cs with
  | [] => exact absurd rfl h
  | c :: cs =>
      have h1 : (step w initialState c).2.1 = 1 := by
        rw [step_attempts]; exact ensure_attempts w initialState rfl
      have h2 : ((step w initialState c).1).initialized = true := by
        rw [step_state]; exact ensure_flag w initialState
      have h3 := runCalls_of_flag w _ h2 cs
      rw [runCalls_cons, h3, h1]
      rfl

/-- C1 witness: a concrete single-call sequence triggers exactly one
construction attempt. -/
theorem lazy_single_construction_attempt_w :
    (runCalls sampleWorld initialState [Call.info ["ready"]]).2 = 1 :=
  (lazy_single_construction_attempt sampleWorld [Call.info ["ready"]]
    (by simp)).1

/-- C2: `Init` with an empty `ServiceName` fails with the
missing-service-name error, and with a non-empty `ServiceName` but empty
`LogFile` fails with the missing-log-file error; in both cases it returns
with an empty effect trace (no file or directory touched) and the
process-wide state unchanged. -/
theorem init_validates_before_effects (w : World) (st : State) (cfg : Config) :
    (cfg.serviceName = "" →
      Init w st cfg = (st, [], .error "ServiceName is required"))
    ∧ (cfg.serviceName ≠ "" → cfg.logFile = "" →
      Init w st cfg = (st, [], .error "LogFile is required")) := by
  constructor
  · intro h
    simp [Init, h]
  · intro h1 h2
    simp [Init, h1, h2]

/-- C2 witness: both validation failures at concrete configs. -/
theorem init_validates_before_effects_w :
    Init sampleWorld initialState
        { serviceName := "", logFile := "/tmp/t.log", environment := "",
          version := "", console := false } =
      (initialState, [], .error "ServiceName is required")
    ∧ Init sampleWorld initialState
        { serviceName := "core", logFile := "", environment := "",
          version := "", console := false } =
      (initialState, [], .error "LogFile is required") :=
  ⟨(init_validates_before_effects sampleWorld initialState
      { serviceName := "", logFile := "/tmp/t.log", environment := "",
        version := "", console := false }).1 rfl,
   (init_validates_before_effects sampleWorld initialState
      { serviceName := "core", logFile := "", environment := "",
        version := "", console := false }).2 (by decide) rfl⟩

/-- C3: for configs with non-empty `ServiceName` and `LogFile`, `Init`
runs the construction on the default-resolved config, where an empty
`Environment` resolves to the `APP_ENV` environment variable, then to
`"dev"` when that is also empty; an empty `Version` resolves to
`APP_VERSION`, then to `"1.0.0"`; non-empty explicit values are kept
unchanged. -/
theorem init_env_version_defaults (w : World) (st : State) (cfg : Config) :
    (cfg.environment ≠ "" →
      (resolveConfig w cfg).environment = cfg.environment)
    ∧ (cfg.environment = "" → w.getenv "APP_ENV" ≠ "" →
      (resolveConfig w cfg).environment = w.getenv "APP_ENV")
    ∧ (cfg.environment = "" → w.getenv "APP_ENV" = "" →
      (resolveConfig w cfg).environment = "dev")
    ∧ (cfg.version ≠ "" → (resolveConfig w cfg).version = cfg.version)
    ∧ (cfg.version = "" → w.getenv "APP_VERSION" ≠ "" →
      (resolveConfig w cfg).version = w.getenv "APP_VERSION")
    ∧ (cfg.version = "" → w.getenv "APP_VERSION" = "" →
      (resolveConfig w cfg).version = "1.0.0")
    ∧ (cfg.serviceName ≠ "" → cfg.logFile ≠ "" →
      Init w st cfg = buildFromResolved w st (resolveConfig w cfg)) := by
  refine ⟨fun h => ?_, fun h1 h2 => ?_, fun h1 h2 => ?_, fun h => ?_,
    fun h1 h2 => ?_, fun h1 h2 => ?_, fun h1 h2 => ?_⟩
  · simp [resolveConfig, h]
  · simp [resolveConfig, h1, h2]
  · simp [resolveConfig, h1, h2]
  · simp [resolveConfig, h]
  · simp [resolveConfig, h1, h2]
  · simp [resolveConfig, h1, h2]
  · simp [Init, h1, h2]

/-- C3 witness: with no environment variables set, empty fields resolve
to `"dev"` and `"1.0.0"`, and explicit values are kept. -/
theorem init_env_version_defaults_w :
    (resolveConfig sampleWorld
      { serviceName := "core", logFile := "/tmp/t.log", environment := "",
        version := "", console := true }).environment = "dev"
    ∧ (resolveConfig sampleWorld
      { serviceName := "core", logFile := "/tmp/t.log", environment := "",
        version := "", console := true }).version = "1.0.0"
    ∧ (resolveConfig sampleWorld
      { serviceName := "core", logFile := "/tmp/t.log",
        environment := "prod", version := "2.1", console := true
        }).environment = "prod" :=
  ⟨(init_env_version_defaults sampleWorld initialState
      { serviceName := "core", logFile := "/tmp/t.log", environment := "",
        version := "", console := true }).2.2.1 rfl rfl,
   (init_env_version_defaults sampleWorld initialState
      { serviceName := "core", logFile := "/tmp/t.log", environment := "",
        version := "", console := true }).2.2.2.2.2.1 rfl rfl,
   (init_env_version_defaults sampleWorld initialState
      { serviceName := "core", logFile := "/tmp/t.log",
        environment := "prod", version := "2.1", console := true }).1
     (by decide)⟩

/-- C4 counterexample: with `LogFile = "stdout"` and console disabled,
the constructed output-destination list does contain the standard-output
sink even though `console_enabled` is false, so the claimed equivalence
fails at this config. -/
theorem init_output_paths_cex :
    "stdout" ∈ (zapConfigFor sampleWorld
        { serviceName := "s", logFile := "stdout", environment := "prod",
          version := "1", console := false }).outputPaths
    ∧ ({ serviceName := "s", logFile := "stdout", environment := "prod",
         version := "1", console := false } : Config).console ≠ true := by
  constructor
  · simp [zapConfigFor]
  · decide

/-- C4 (amended): the constructed output-destination list contains the
standard-output sink if and only if `console_enabled` is true or the log
file path is itself the string `"stdout"`; the log file path is always
the last element of the list; when `console_enabled` is false the list is
exactly the single file path. -/
theorem init_output_paths (w : World) (cfg : Config) :
    ("stdout" ∈ (zapConfigFor w cfg).outputPaths ↔
      (cfg.console = true ∨ cfg.logFile = "stdout"))
    ∧ (zapConfigFor w cfg).outputPaths.getLast? = some cfg.logFile
    ∧ (cfg.console = false → (zapConfigFor w cfg).outputPaths = [cfg.logFile]) := by
  refine ⟨?_, ?_, fun h => ?_⟩
  · cases hc : cfg.console <;> simp [zapConfigFor, hc, eq_comm]
  · simp [zapConfigFor, List.getLast?_concat]
  · simp [zapConfigFor, h]

/-- C4 witness: console disabled gives exactly the single file path. -/
theorem init_output_paths_w :
    (zapConfigFor sampleWorld
      { serviceName := "core", logFile := "/tmp/t.log", environment := "dev",
        version := "1.0.0", console := false }).outputPaths = ["/tmp/t.log"] :=
  (init_output_paths sampleWorld
    { serviceName := "core", logFile := "/tmp/t.log", environment := "dev",
      version := "1.0.0", console := false }).2.2 rfl

/-- C5: after default resolution, environment `"dev"` yields a zap config
in development mode with debug-level minimum severity; any other resolved
environment keeps the production defaults, which are info-level minimum
severity and development mode off. -/
theorem init_dev_mode (w : World) (cfg : Config) :
    ((resolveConfig w cfg).environment = "dev" →
      (zapConfigFor w (resolveConfig w cfg)).development = true
      ∧ (zapConfigFor w (resolveConfig w cfg)).level = .debug)
    ∧ ((resolveConfig w cfg).environment ≠ "dev" →
      (zapConfigFor w (resolveConfig w cfg)).development =
        productionConfig.development
      ∧ (zapConfigFor w (resolveConfig w cfg)).level = productionConfig.level)
    ∧ productionConfig.development = false
    ∧ productionConfig.level = .info := by
  refine ⟨fun h => ?_, fun h => ?_, rfl, rfl⟩ <;> simp [zapConfigFor, h]

/-- C5 witness: a config resolving to `"dev"` gets development mode and
debug level; an explicit `"prod"` config gets the production defaults. -/
theorem init_dev_mode_w :
    (zapConfigFor sampleWorld (resolveConfig sampleWorld
      { serviceName := "core", logFile := "/tmp/t.log", environment := "",
        version := "", console := true })).development = true
    ∧ (zapConfigFor sampleWorld (resolveConfig sampleWorld
      { serviceName := "core", logFile := "/tmp/t.log", environment := "",
        version := "", console := true })).level = .debug
    ∧ (zapConfigFor sampleWorld (resolveConfig sampleWorld
      { serviceName := "core", logFile := "/tmp/t.log",
        environment := "prod", version := "", console := true })).level =
      productionConfig.level :=
  ⟨((init_dev_mode sampleWorld
      { serviceName := "core", logFile := "/tmp/t.log", environment := "",
        version := "", console := true }).1 rfl).1,
   ((init_dev_mode sampleWorld
      { serviceName := "core", logFile := "/tmp/t.log", environment := "",
        version := "", console := true }).1 rfl).2,
   ((init_dev_mode sampleWorld
      { serviceName := "core", logFile := "/tmp/t.log",
        environment := "prod", version := "", console := true }).2.1
     (by decide)).2⟩

/-- C6: for every config passing validation, `Init`'s effect trace starts
with `MkdirAll` on the parent directory of the log file with permission
bits octal 0755 (owner read/write/execute, group and other read/execute),
and the build step, when reached, comes strictly after; when the
directory creation fails, `Init` returns the directory-creation error
wrapping the underlying cause, the state is unchanged, and no build is
attempted. -/
theorem init_creates_log_dir (w : World) (st : State) (cfg : Config)
    (h1 : cfg.serviceName ≠ "") (h2 : cfg.logFile ≠ "") :
    ((Init w st cfg).2.1 = [.mkdirAll (w.filepathDir cfg.logFile) mkdirPerm]
      ∨ (Init w st cfg).2.1 =
        [.mkdirAll (w.filepathDir cfg.logFile) mkdirPerm,
         .buildLogger (zapConfigFor w (resolveConfig w cfg)).outputPaths])
    ∧ mkdirPerm = 0o755
    ∧ mkdirPerm = 7 * 8 ^ 2 + 5 * 8 + 5
    ∧ (w.mkdirOk (w.filepathDir cfg.logFile) = false →
      (Init w st cfg).1 = st
      ∧ (Init w st cfg).2.2 =
        .error ("failed to create log directory: "
          ++ w.mkdirErr (w.filepathDir cfg.logFile))
      ∧ (Init w st cfg).2.1 =
        [.mkdirAll (w.filepathDir cfg.logFile) mkdirPerm]) := by
  have hInit : Init w st cfg = buildFromResolved w st (resolveConfig w cfg) := by
    simp [Init, h1, h2]
  have hlf : (resolveConfig w cfg).logFile = cfg.logFile := rfl
  cases hmk : w.mkdirOk (w.filepathDir cfg.logFile) with
  | false =>
      refine ⟨.inl ?_, rfl, rfl, fun _ => ⟨?_, ?_, ?_⟩⟩ <;>
        simp [hInit, buildFromResolved, hlf, hmk]
  | true =>
      refine ⟨?_, rfl, rfl, fun hf => ?_⟩
      · cases hb : buildZap w (zapConfigFor w (resolveConfig w cfg)) 1 with
        | ok l => exact .inr (by simp [hInit, buildFromResolved, hlf, hmk, hb])
        | error e => exact .inr (by simp [hInit, buildFromResolved, hlf, hmk, hb])
      · simp at hf

/-- C6 witness: in a world where directory creation fails, `Init` on a
valid config returns the wrapped directory-creation error. -/
theorem init_creates_log_dir_w :
    (Init mkdirFailWorld initialState
      { serviceName := "core", logFile := "/tmp/t.log", environment := "",
        version := "", console := true }).2.2 =
      .error ("failed to create log directory: " ++ "permission denied") :=
  ((init_creates_log_dir mkdirFailWorld initialState
      { serviceName := "core", logFile := "/tmp/t.log", environment := "",
        version := "", console := true } (by decide) (by decide)).2.2.2
    rfl).2.1

/-- C7: from any uninitialized state, `ensureInitialized` (whose return
type carries no error: the lazy path never surfaces one) leaves the flag
set and a present (non-nil) process-wide instance, and whenever the
regular construction via `Init` fails it installs the minimal
console-only (`["stdout"]` sinks), development-mode fallback logger, so
no logging call after it can observe an unconstructed instance. -/
theorem ensure_installs_fallback (w : World) (st : State)
    (h : st.initialized = false) :
    ((ensureInitialized w st).1).initialized = true
    ∧ ((ensureInitialized w st).1).globalLogger.isSome = true
    ∧ (∀ e, (Init w st (autoConfig w)).2.2 = .error e →
      ((ensureInitialized w st).1).globalLogger = some fallbackLogger)
    ∧ fallbackLogger.outputPaths = ["stdout"]
    ∧ fallbackLogger.development = true := by
  refine ⟨ensure_flag w st, ensure_some w st h, fun e he => ?_, rfl, rfl⟩
  unfold ensureInitialized
  simp [h, he, fallback_build w, Except.toOption]

/-- C7 witness: in a world where directory creation fails, the fallback
console logger is installed by `ensureInitialized`. -/
theorem ensure_installs_fallback_w :
    ((ensureInitialized mkdirFailWorld initialState).1).globalLogger =
      some fallbackLogger :=
  (ensure_installs_fallback mkdirFailWorld initialState rfl).2.2.1
    ("failed to create log directory: " ++ "permission denied") rfl

/-- C8: for every key/value pair list (an even-length variadic list is a
list of pairs), `WithFields` returns the derived logger extending the
global one with the given fields; every record the derived logger emits
contains the given fields in addition to all baseline fields of the
global logger; the process-wide state is a function argument `WithFields`
never rebuilds, and a record emitted through the process-wide instance's
own entry points afterwards has exactly the baseline fields plus that
call's fields, hence contains none of the derived fields that are not
among them. -/
theorem with_fields_derived_handle (w : World) (st : State) (g : Logger)
    (hg : st.globalLogger = some g) (hinit : st.initialized = true)
    (kvs extra : List (String × String)) (msg : String) (sev : Severity) :
    WithFields st kvs = some (g.withKVs kvs)
    ∧ (∀ p ∈ kvs, p ∈ ((g.withKVs kvs).emit sev msg extra).fields)
    ∧ (∀ p ∈ g.fields, p ∈ ((g.withKVs kvs).emit sev msg extra).fields)
    ∧ (InfoStruct w st msg extra).1 = st
    ∧ (InfoStruct w st msg extra).2.2 = some (g.emit .info msg extra)
    ∧ (∀ p, p ∉ g.fields → p ∉ extra → p ∉ (g.emit .info msg extra).fields) := by
  have he := ensure_of_flag w st hinit
  refine ⟨by simp [WithFields, hg], fun p hp => ?_, fun p hp => ?_, ?_, ?_,
    fun p hp1 hp2 => ?_⟩
  · simp [Logger.emit, Logger.withKVs]
    tauto
  · simp [Logger.emit, Logger.withKVs]
    tauto
  · show ((ensureInitialized w st).1, _, _).1 = st
    rw [he]
  · show ((ensureInitialized w st).1).emitVia .info msg extra =
      some (g.emit .info msg extra)
    rw [he]
    simp [State.emitVia, hg]
  · simp [Logger.emit, hp1, hp2]

/-- C8 witness: a derived handle from a concrete initialized state. -/
theorem with_fields_derived_handle_w :
    WithFields { globalLogger := some fallbackLogger, initialized := true }
        [("k1", "v1"), ("k2", "v2")] =
      some (fallbackLogger.withKVs [("k1", "v1"), ("k2", "v2")]) :=
  (with_fields_derived_handle sampleWorld
    { globalLogger := some fallbackLogger, initialized := true }
    fallbackLogger rfl rfl [("k1", "v1"), ("k2", "v2")] [] "m" .info).1

/-- C9: the generated trace id is exactly the string
`trace_{unix_seconds}_{r}` where the first component is the wall-clock
Unix time in seconds and `r` is the output, reduced into `[0, 10000)`, of
the random source seeded with the nanosecond wall-clock time; it is
computed once into the zap config's initial fields, so every record of a
logger constructed from that config carries the same value for the whole
lifetime of the instance. -/
theorem trace_id_format (w : World) :
    generateTraceID w =
      "trace_" ++ toString w.nowUnix ++ "_"
        ++ toString (w.randSrc w.nowUnixNano % 10000)
    ∧ w.randSrc w.nowUnixNano % 10000 < 10000
    ∧ (∀ cfg : Config,
      ("trace_id", generateTraceID w) ∈ (zapConfigFor w cfg).initialFields)
    ∧ (∀ (cfg : Config) (skip : Nat) (sev : Severity) (msg : String)
        (kvs : List (String × String)),
      ("trace_id", generateTraceID w) ∈
        ((mkLogger (zapConfigFor w cfg) skip).emit sev msg kvs).fields) := by
  refine ⟨rfl, Nat.mod_lt _ (by norm_num), fun cfg => ?_,
    fun cfg skip sev msg kvs => ?_⟩
  · simp [zapConfigFor]
  · simp [zapConfigFor, mkLogger, Logger.emit]

/-- C10: in the lazy-policy variant, `WithFields` is the only public
logging entry point that does not first run `ensureInitialized`: from the
fresh process state where nothing has been initialized, `WithFields`
dereferences the nil process-wide instance (modelled as `none`), while
every leveled and structured logging entry point produces a record
through a present instance because it triggers lazy construction first. -/
theorem with_fields_skips_lazy_init (w : World) (format msg : String)
    (args : List String) (kvs : List (String × String)) :
    WithFields initialState kvs = none
    ∧ (Print w initialState args).2.2.isSome = true
    ∧ (Printf w initialState format args).2.2.isSome = true
    ∧ (Println w initialState args).2.2.isSome = true
    ∧ (Fatal w initialState args).2.2.isSome = true
    ∧ (Fatalf w initialState format args).2.2.isSome = true
    ∧ (Fatalln w initialState args).2.2.isSome = true
    ∧ (Panic w initialState args).2.2.isSome = true
    ∧ (Panicf w initialState format args).2.2.isSome = true
    ∧ (Panicln w initialState args).2.2.isSome = true
    ∧ (Error w initialState args).2.2.isSome = true
    ∧ (Errorf w initialState format args).2.2.isSome = true
    ∧ (Warn w initialState args).2.2.isSome = true
    ∧ (Warnf w initialState format args).2.2.isSome = true
    ∧ (Info w initialState args).2.2.isSome = true
    ∧ (Infof w initialState format args).2.2.isSome = true
    ∧ (Debug w initialState args).2.2.isSome = true
    ∧ (Debugf w initialState format args).2.2.isSome = true
    ∧ (InfoStruct w initialState msg kvs).2.2.isSome = true
    ∧ (ErrorStruct w initialState msg kvs).2.2.isSome = true
    ∧ (DebugStruct w initialState msg kvs).2.2.isSome = true
    ∧ (WarnStruct w initialState msg kvs).2.2.isSome = true :=
  ⟨rfl,
   emit_after_ensure_isSome w initialState rfl .info (w.sprint args) [],
   emit_after_ensure_isSome w initialState rfl .info (w.sprintf format args) [],
   emit_after_ensure_isSome w initialState rfl .info (w.sprint args) [],
   emit_after_ensure_isSome w initialState rfl .fatal (w.sprint args) [],
   emit_after_ensure_isSome w initialState rfl .fatal (w.sprintf format args) [],
   emit_after_ensure_isSome w initialState rfl .fatal (w.sprint args) [],
   emit_after_ensure_isSome w initialState rfl .panic (w.sprint args) [],
   emit_after_ensure_isSome w initialState rfl .panic (w.sprintf format args) [],
   emit_after_ensure_isSome w initialState rfl .panic (w.sprint args) [],
   emit_after_ensure_isSome w initialState rfl .error (w.sprint args) [],
   emit_after_ensure_isSome w initialState rfl .error (w.sprintf format args) [],
   emit_after_ensure_isSome w initialState rfl .warn (w.sprint args) [],
   emit_after_ensure_isSome w initialState rfl .warn (w.sprintf format args) [],
   emit_after_ensure_isSome w initialState rfl .info (w.sprint args) [],
   emit_after_ensure_isSome w initialState rfl .info (w.sprintf format args) [],
   emit_after_ensure_isSome w initialState rfl .debug (w.sprint args) [],
   emit_after_ensure_isSome w initialState rfl .debug (w.sprintf format args) [],
   emit_after_ensure_isSome w initialState rfl .info msg kvs,
   emit_after_ensure_isSome w initialState rfl .error msg kvs,
   emit_after_ensure_isSome w initialState rfl .debug msg kvs,
   emit_after_ensure_isSome w initialState rfl .warn msg kvs⟩

end TpLogger
